import Mathlib

/- Verification development for the ReAct cricket question-answering
dispatcher of `react_cricket_agent.py`: a shallow embedding of the
question validator, entity extractor, action planner, data analyzer,
observation builder and response generator, together with theorems about
the specified behaviour.

Modelling conventions:
- pandas numeric values (Python floats) are modelled as rationals;
- Python strings are Lean `String`s; `str.lower` is modelled per
  character with `Char.toLower` (ASCII case folding, which covers every
  string the agent manipulates);
- the external generative-model client is a parameter of type
  `String → Except String String` (`Except.error` models a raised
  exception, `Except.ok` a response object whose `text` is the payload);
- Python dict iteration follows insertion order (CPython 3.7+), so
  dicts appear as association lists in insertion order. -/

attribute [local semireducible] Rat.add Rat.mul Rat.inv Rat.sub

set_option maxRecDepth 40000

namespace ReactAgent

/-! ### String primitives (kernel-computable replacements for library
string functions whose implementations do not reduce definitionally) -/

/-- ASCII lower-casing of a string, modelling Python `str.lower()`. -/
def lowerStr (s : String) : String := String.mk (s.data.map Char.toLower)

/-- ASCII upper-casing of a string, modelling Python `str.upper()`. -/
def upperStr (s : String) : String := String.mk (s.data.map Char.toUpper)

/-- Does `hay` start with `needle`? -/
def listBeginsWith : List Char → List Char → Bool
  | [], _ => true
  | _ :: _, [] => false
  | n :: ns, h :: hs => n == h && listBeginsWith ns hs

/-- Does `hay` contain `needle` as a contiguous substring?  Models the
Python `needle in hay` test on strings. -/
def listHasSub (hay needle : List Char) : Bool :=
  match hay with
  | [] => needle.isEmpty
  | _ :: t => listBeginsWith needle hay || listHasSub t needle

/-- Python `pat in s` (substring containment). -/
def strContains (s pat : String) : Bool := listHasSub s.data pat.data

/-- Python `s.startswith(pat)`. -/
def strBeginsWith (s pat : String) : Bool := listBeginsWith pat.data s.data

/-- Whitespace test used by Python `str.split()` / `str.strip()`. -/
def isSpaceChar (c : Char) : Bool := c == ' ' || c == '\t' || c == '\n' || c == '\r'

/-- Helper for `splitWords`: accumulates the current word (reversed). -/
def splitWordsAux : List Char → List Char → List String
  | [], cur => if cur.isEmpty then [] else [String.mk cur.reverse]
  | c :: t, cur =>
    if isSpaceChar c then
      if cur.isEmpty then splitWordsAux t [] else String.mk cur.reverse :: splitWordsAux t []
    else splitWordsAux t (c :: cur)

/-- Python `str.split()` with no argument: split on runs of whitespace,
dropping empty pieces. -/
def splitWords (s : String) : List String := splitWordsAux s.data []

/-- Helper for `splitCharKeep`. -/
def splitCharAux (sep : Char) : List Char → List Char → List String
  | [], cur => [String.mk cur.reverse]
  | c :: t, cur =>
    if c == sep then String.mk cur.reverse :: splitCharAux sep t [] else splitCharAux sep t (c :: cur)

/-- Python `str.split(sep)` for a one-character separator (keeps empty
pieces). -/
def splitCharKeep (s : String) (sep : Char) : List String := splitCharAux sep s.data []

/-- Python `s.split(sep, 1)` for a one-character separator: the part
before the first occurrence and the part after it. Returns `none` when
the separator does not occur. -/
def splitFirstChar (s : String) (sep : Char) : Option (String × String) :=
  if strContains s (String.mk [sep]) then
    match splitCharKeep s sep with
    | [] => none
    | x :: rest => some (x, String.intercalate (String.mk [sep]) rest)
  else none

/-- Occurrence-order list of split pieces for a multi-character
separator, as in Python `str.split(sep)` (non-overlapping, left to
right).  `fuel` bounds the recursion; callers supply `hay.length + 1`,
which exceeds the number of pieces. -/
def splitOnSubAux (needle : List Char) : Nat → List Char → List (List Char)
  | 0, hay => [hay]
  | fuel + 1, hay =>
    match findSubIdx hay needle 0 with
    | none => [hay]
    | some i => hay.take i :: splitOnSubAux needle fuel (hay.drop (i + needle.length))
where
  /-- Index of the first occurrence of `needle` in `hay`, if any. -/
  findSubIdx : List Char → List Char → Nat → Option Nat
    | [], n, i => if n.isEmpty then some i else none
    | c :: t, n, i => if listBeginsWith n (c :: t) then some i else findSubIdx t n (i + 1)

/-- Python `str.split(sep)` for a non-empty multi-character separator. -/
def splitOnSub (s sep : String) : List String :=
  (splitOnSubAux sep.data (s.data.length + 1) s.data).map String.mk

/-- Python `str.strip()` (whitespace from both ends). -/
def trimSpaces (s : String) : String :=
  String.mk (((s.data.dropWhile isSpaceChar).reverse.dropWhile isSpaceChar).reverse)

/-- Strict lexicographic comparison of character lists by code point,
modelling Python string `<`. -/
def listLexLt : List Char → List Char → Bool
  | [], [] => false
  | [], _ :: _ => true
  | _ :: _, [] => false
  | a :: as, b :: bs =>
    if a.toNat < b.toNat then true
    else if b.toNat < a.toNat then false
    else listLexLt as bs

/-- Python string `s < t`. -/
def strLtB (s t : String) : Bool := listLexLt s.data t.data

/-- Python string `s <= t`. -/
def strLeB (s t : String) : Bool := !(strLtB t s)

/-- First-occurrence deduplication, modelling `pandas.Series.unique`
and Python `dict` key insertion order. -/
def dedupKeepFirst (l : List String) : List String :=
  go l []
where
  go : List String → List String → List String
    | [], _ => []
    | a :: rest, seen =>
      if seen.contains a then go rest seen else a :: go rest (a :: seen)

/-- Python `int(s)` restricted to optionally signed decimal digits;
`none` models a raised `ValueError`. -/
def parseIntStr (s : String) : Option Int :=
  match (trimSpaces s).data with
  | '-' :: ds => (digits ds).map (fun n => -(n : Int))
  | '+' :: ds => (digits ds).map (fun n => (n : Int))
  | ds => (digits ds).map (fun n => (n : Int))
where
  digits : List Char → Option Nat
    | [] => none
    | l => l.foldl (fun acc c =>
        match acc with
        | none => none
        | some n => if c.isDigit then some (n * 10 + (c.toNat - 48)) else none) (some 0)

/-! ### Rounding (Python `round(x, 1)`: banker's rounding to one
decimal, idealised over the rationals) -/

/-- Round-half-to-even to the nearest integer, as Python `round`. -/
def roundHalfEven (q : ℚ) : ℤ :=
  if q - ⌊q⌋ = 1 / 2 then (if ⌊q⌋ % 2 = 0 then ⌊q⌋ else ⌊q⌋ + 1) else ⌊q + 1 / 2⌋

/-- Python `round(q, 1)`. -/
def round1 (q : ℚ) : ℚ := (roundHalfEven (10 * q) : ℚ) / 10

/-- Sum of a list of rationals. -/
def qsum (l : List ℚ) : ℚ := l.foldl (· + ·) 0

/-- pandas `Series.mean` (the empty case, pandas `NaN`, is mapped to 0;
it is never hit on grouped data). -/
def qmean (l : List ℚ) : ℚ := if l.length = 0 then 0 else qsum l / (l.length : ℚ)

/-- pandas `Series.max` over a non-empty list (0 on the empty list). -/
def qmax : List ℚ → ℚ
  | [] => 0
  | a :: t => t.foldl max a

/-- Render a rational that is an integer multiple of `1/10` the way
Python prints such a float (for example `150.0`, `123.4`). -/
def fmtTenths (q : ℚ) : String :=
  let t := 10 * q
  if t.den == 1 then
    let sign := if t.num < 0 then "-" else ""
    let a := t.num.natAbs
    sign ++ (toString (a / 10) ++ ("." ++ toString (a % 10)))
  else toString q

/-! ### Question validator (`ReActCricketAgent._validate_question`) -/

/-- The `available_data` list of `_validate_question`. -/
def available_data : List String :=
  ["player names", "teams", "matches", "overs", "years",
   "runs", "balls faced", "strike rate", "dot percentage",
   "boundary percentage", "entry phase (powerplay/middle/death)",
   "innings duration", "entry over", "exit over"]

/-- The `unavailable_concepts` dict of `_validate_question`, in insertion
order. -/
def unavailable_concepts : List (String × List String) :=
  [("bowling_type", ["spin", "pace", "fast", "seam", "off-spin", "leg-spin", "left-arm", "right-arm"]),
   ("bowler_identity", ["bowler", "against", "facing"]),
   ("ball_by_ball", ["ball-by-ball", "delivery", "specific ball"]),
   ("fielding", ["fielding", "catches", "run-outs", "field placement"]),
   ("bowling_stats", ["wickets taken", "economy rate", "bowling average", "bowling strike rate"]),
   ("match_outcome", ["win", "loss", "result", "victory"]),
   ("venue", ["ground", "stadium", "venue", "pitch"]),
   ("weather", ["weather", "rain", "dew"]),
   ("toss", ["toss", "bat first", "chase"])]

/-- All forbidden keywords, flattened in scan order. -/
def forbiddenKeywords : List String := (unavailable_concepts.map Prod.snd).flatten

/-- Team codes whose presence excuses the keyword `against`. -/
def team_exception_words : List String :=
  ["team", "mi", "csk", "rcb", "kkr", "dc", "pbks", "rr", "srh", "gt", "lsg"]

/-- Player surnames whose presence excuses the keyword `against`. -/
def player_exception_names : List String := ["kohli", "rohit", "dhoni", "pandya", "sharma"]

/-- The two `continue` conditions applied when the matched keyword is
`against` (team matchup, or player comparison). -/
def againstException (ql : String) : Bool :=
  team_exception_words.any (fun w => strContains ql w) ||
    (strContains ql "compare" || player_exception_names.any (fun n => strContains ql n))

/-- Does keyword `kw` cause rejection of the (lower-cased) question
`ql`?  It must occur as a substring, and the `against` exceptions must
not apply. -/
def triggersKeyword (ql kw : String) : Bool :=
  strContains ql kw && !(kw == "against" && againstException ql)

/-- First rejecting keyword of a keyword group, if any. -/
def scanKeywordList (ql : String) : List String → Option String
  | [] => none
  | k :: rest => if triggersKeyword ql k then some k else scanKeywordList ql rest

/-- First (concept, keyword) pair that rejects the question, scanning
concept groups in insertion order. -/
def scanConcepts (ql : String) : List (String × List String) → Option (String × String)
  | [] => none
  | (c, kws) :: rest =>
    match scanKeywordList ql kws with
    | some k => some (c, k)
    | none => scanConcepts ql rest

/-- Result record of `_validate_question` (`message` is `None` on the
valid path). -/
structure ValidationResult where
  is_valid : Bool
  message : Option String
deriving DecidableEq

/-- `concept_type.replace('_', ' ')`. -/
def underscoreToSpace (s : String) : String :=
  String.mk (s.data.map fun c => if c == '_' then ' ' else c)

/-- Shared head of all three rejection messages. -/
def msgHead : String := "\n⚠️ **Question Out of Bounds**\n\n"

/-- The templated rejection message for concept `concept_type` matched
at `keyword`, exactly as built by `_validate_question` (the
`available_data` join is inlined). -/
def messageFor (concept_type keyword : String) : String :=
  if concept_type == "bowling_type" then
    msgHead ++
      ("Your question mentions **bowling type** (\"" ++ (keyword ++
      ("\"), but our dataset doesn\x27t contain this information.\n\n**What we CAN analyze:**\n- Player performance by **entry phase** (Powerplay overs 1-6, Middle overs 7-15, Death overs 16-20)\n- Strike rates, runs, balls faced, dot%, boundary%\n- Performance by team, year, and match\n- Entry timing and innings duration\n\n**What we CANNOT analyze:**\n- Performance against specific bowling types (spin/pace)\n- Performance against specific bowlers\n- Ball-by-ball details\n\n**Try asking instead:**\n- \"Which players perform best in middle overs?\" (instead of \"against spin\")\n- \"Who are the best death-overs finishers?\"\n- \"How does [player] perform in the powerplay?\"\n\n**Available data fields:** " ++
      (String.intercalate ", " available_data ++ "\n"))))
  else if concept_type == "bowler_identity" then
    msgHead ++
      ("Your question asks about **specific bowlers or bowling matchups**, but our dataset only contains batting statistics.\n\n**What we CAN analyze:**\n- Batting performance by entry phase (Powerplay/Middle/Death)\n- Player strike rates, runs, efficiency metrics\n- Team and year-based analysis\n\n**What we CANNOT analyze:**\n- Performance against specific bowlers\n- Bowler vs batsman matchups\n\n**Try asking instead:**\n- \"Which batsmen perform best in [phase]?\"\n- \"How does [player] perform when entering in the death overs?\"\n\n**Available data fields:** " ++
      (String.intercalate ", " available_data ++ "\n"))
  else
    msgHead ++
      ("Your question asks about **" ++ (underscoreToSpace concept_type ++
      ("**, which is not available in our dataset.\n\n**What we CAN analyze:**\n- Player batting performance by entry phase (Powerplay/Middle/Death)\n- Strike rates, runs, balls faced, dot%, boundary%\n- Performance by team, year, and match\n- Entry timing and innings duration\n\n**Available data fields:** " ++
      (String.intercalate ", " available_data ++
      "\n\n**Try rephrasing your question** to focus on batting performance metrics and entry phases.\n"))))

/-- `ReActCricketAgent._validate_question`. -/
def validateQuestion (question : String) : ValidationResult :=
  let question_lower := lowerStr question
  match scanConcepts question_lower unavailable_concepts with
  | some (c, kw) => { is_valid := false, message := some (messageFor c kw) }
  | none => { is_valid := true, message := none }

/-! ### Entity extractor (`ReActCricketAgent._extract_entities`)

The player patterns are Python regular expressions of the restricted
form `\b(lit \s* lit c? | lit)\b`.  `Pat` captures exactly the regex
constructs used, and `patMatches` enumerates the possible remainders in
the backtracking preference order of the `re` module (greedy `\s*` and
`?`, left alternative first). -/

/-- Regex fragments used by the player name patterns. -/
inductive Pat where
  | eps : Pat
  | ch (c : Char) : Pat
  | cat (p q : Pat) : Pat
  | alt (p q : Pat) : Pat
  | spaceStar : Pat
  | optChar (c : Char) : Pat

/-- Remainders after consuming zero or more whitespace characters,
greedy (most consumed) first. -/
def spacesSplits : List Char → List (List Char)
  | [] => [[]]
  | c :: t => if isSpaceChar c then spacesSplits t ++ [c :: t] else [c :: t]

/-- All remainders after matching `p` against a prefix of the input, in
preference order. -/
def patMatches : Pat → List Char → List (List Char)
  | .eps, s => [s]
  | .ch _, [] => []
  | .ch c, x :: t => if x == c then [t] else []
  | .cat p q, s => ((patMatches p s).map (patMatches q)).flatten
  | .alt p q, s => patMatches p s ++ patMatches q s
  | .spaceStar, s => spacesSplits s
  | .optChar _, [] => [[]]
  | .optChar c, x :: t => if x == c then [t, x :: t] else [x :: t]

/-- A literal string as a pattern. -/
def strPat (s : String) : Pat := s.data.foldr (fun c p => .cat (.ch c) p) .eps

/-- Word character, as in the regex `\b` boundary. -/
def isWordChar (c : Char) : Bool := c.isAlphanum || c == '_'

/-- Pick the first remainder that both consumed at least one character
and ends at a word boundary (our patterns end in word characters, so
the boundary holds iff the next character is absent or non-word). -/
def pickBoundaryMatch (s : List Char) (cands : List (List Char)) : Option (List Char) :=
  cands.find? fun r =>
    r.length < s.length && (r.isEmpty || !isWordChar (r.headD ' '))

/-- Scan for non-overlapping matches of `\b(p)\b`, leftmost first, as
`re.findall`.  `prev` is the character before the current position;
`fuel` bounds the recursion (each step consumes at least one character,
so `s.length + 1` suffices). -/
def findAllAux (p : Pat) : Nat → Option Char → List Char → List String
  | 0, _, _ => []
  | _ + 1, _, [] => []
  | fuel + 1, prev, s@(c :: t) =>
    let boundaryOk := match prev with
      | none => true
      | some pc => !isWordChar pc
    if boundaryOk then
      match pickBoundaryMatch s (patMatches p s) with
      | some r =>
        let consumed := s.length - r.length
        String.mk (s.take consumed) :: findAllAux p fuel (some ((s.take consumed).getLastD c)) r
      | none => findAllAux p fuel (some c) t
    else findAllAux p fuel (some c) t

/-- `re.findall(pattern, question_lower)` for a word-bounded player
pattern. -/
def findAllPat (p : Pat) (s : String) : List String :=
  findAllAux p (s.data.length + 1) none s.data

/-- The extracted-entities record of `_extract_entities`. -/
structure Entities where
  players : List String
  teams : List String
  bowling_types : List String
  phases : List String
  intent : String
deriving DecidableEq

/-- The seven player regexes of `_extract_entities`, in order. -/
def player_patterns : List Pat :=
  [.alt (.cat (strPat "hardik") (.cat .spaceStar (.cat (strPat "pandy") (.optChar 'a')))) (strPat "pandya"),
   .alt (.cat (strPat "virat") (.cat .spaceStar (strPat "kohli"))) (strPat "kohli"),
   .alt (.cat (strPat "ms") (.cat .spaceStar (strPat "dhoni"))) (strPat "dhoni"),
   .alt (.cat (strPat "rohit") (.cat .spaceStar (strPat "sharma"))) (strPat "rohit"),
   .alt (.cat (strPat "kl") (.cat .spaceStar (strPat "rahul"))) (strPat "rahul"),
   .alt (.cat (strPat "david") (.cat .spaceStar (strPat "warner"))) (strPat "warner"),
   .alt (.cat (strPat "ab") (.cat .spaceStar (.cat (strPat "de") (.cat .spaceStar (strPat "villiers"))))) (strPat "abd")]

/-- `ReActCricketAgent._extract_entities`. -/
def extractEntities (question : String) : Entities :=
  let question_lower := lowerStr question
  let players := (player_patterns.map (fun p => findAllPat p question_lower)).flatten
  let bowling_types :=
    (if strContains question_lower "spin" then ["spin"] else []) ++
    (if strContains question_lower "pace" || strContains question_lower "fast" then ["pace"] else [])
  let phases :=
    (if strContains question_lower "powerplay" || strContains question_lower "power play" then ["powerplay"] else []) ++
    (if strContains question_lower "death" || strContains question_lower "death over" ||
        strContains question_lower "final over" || strContains question_lower "last over" then ["death"] else []) ++
    (if strContains question_lower "middle" || strContains question_lower "middle over" then ["middle"] else [])
  let intent :=
    if ["when", "should", "deploy", "play"].any (fun w => strContains question_lower w) then "deployment"
    else if ["best", "top", "who"].any (fun w => strContains question_lower w) then "recommendation"
    else if ["compare", "vs", "versus"].any (fun w => strContains question_lower w) then "comparison"
    else "general"
  { players := players, teams := [], bowling_types := bowling_types, phases := phases, intent := intent }

/-! ### Action planner (`ReActCricketAgent._reason_and_plan`) -/

/-- The `is_general_recommendation` phrase list. -/
def general_rec_phrases : List String :=
  ["who are", "who is best", "best players", "top players", "best batsmen",
   "best bowlers", "top performers", "which players"]

/-- The `is_batting_order_question` phrase list. -/
def batting_order_phrases : List String :=
  ["batting order", "batting lineup", "batting line up", "order for",
   "who should open", "who should bat", "lineup for", "line up for",
   "optimal order", "best order", "batting positions", "who bats where",
   "chasing", "chase", "defending", "defend"]

/-- `is_general_recommendation` of `_reason_and_plan`. -/
def isGeneralRecommendation (question : String) : Bool :=
  general_rec_phrases.any fun p => strContains (lowerStr question) p

/-- `is_batting_order_question` of `_reason_and_plan`. -/
def isBattingOrderQuestion (question : String) : Bool :=
  batting_order_phrases.any fun p => strContains (lowerStr question) p

/-- `ReActCricketAgent._reason_and_plan`: the ordered list of action
tokens. -/
def reasonAndPlan (question : String) (entities : Entities) : List String :=
  let is_general_recommendation := isGeneralRecommendation question
  let is_batting_order_question := isBattingOrderQuestion question
  let playerActions :=
    if entities.players ≠ [] ∧ is_general_recommendation = false then
      entities.players.map (fun p => "get_player_stats:" ++ p)
    else []
  let noteActions :=
    if entities.bowling_types ≠ [] then ["note:bowling_type_unavailable"] else []
  let phaseActions :=
    if is_batting_order_question = true then
      ["get_diverse_players_for_phase:powerplay",
       "get_diverse_players_for_phase:middle",
       "get_diverse_players_for_phase:death"]
    else if entities.phases ≠ [] then
      entities.phases.map (fun ph => "get_best_players_for_phase:" ++ ph)
    else if is_general_recommendation = true ∨ (entities.intent = "recommendation" ∧ entities.players = []) then
      (if entities.phases ≠ [] then
        entities.phases.map (fun ph => "get_best_players_for_phase:" ++ ph)
      else ["get_best_players_for_phase:death"])
    else []
  let actions := playerActions ++ (noteActions ++ phaseActions)
  if actions = [] then ["get_best_players_for_phase:powerplay"] else actions

/-! ### Data analyzer (`CricketDataAnalyzer`)

`entry_points` (the aggregated one-row-per-player-match table) is the
analyzer state; its raw rows are `EntryRow` and `mkEntryPoints` adds
the two derived columns `Entry_Phase` and `Final_Strike_Rate` exactly
as `_calculate_entry_points` does. -/

/-- One aggregated entry-point row before the derived columns (column
names of the source, snake-cased). -/
structure EntryRow where
  player : String
  team : String
  match_id : String
  year : String
  entry_over : ℚ
  exit_over : ℚ
  overs_played : ℚ
  runs : ℚ
  bf : ℚ
  strike_rate : ℚ
  dot_pct : ℚ
  bnd_pct : ℚ
  innings_duration : ℚ
deriving DecidableEq

/-- An entry-point row with the derived columns. -/
structure Entry extends EntryRow where
  entry_phase : String
  final_strike_rate : ℚ
deriving DecidableEq

/-- The entry-phase lambda of `_calculate_entry_points`:
`'Powerplay' if x <= 6 else 'Middle' if x <= 15 else 'Death'`. -/
def entryPhase (x : ℚ) : String :=
  if x ≤ 6 then "Powerplay" else if x ≤ 15 then "Middle" else "Death"

/-- Derived columns of one row: `Entry_Phase` from the entry over, and
`Final_Strike_Rate = Runs / BF * 100` when `BF > 0`, otherwise filled
from `Strike_Rate` (the `fillna`). -/
def mkEntry (r : EntryRow) : Entry :=
  { toEntryRow := r,
    entry_phase := entryPhase r.entry_over,
    final_strike_rate := if 0 < r.bf then r.runs / r.bf * 100 else r.strike_rate }

/-- The derived `entry_points` table of `_calculate_entry_points`. -/
def mkEntryPoints (rows : List EntryRow) : List Entry := rows.map mkEntry

/-- Ascending sort of strings (pandas `groupby` sorts group keys). -/
def sortStringsAsc (l : List String) : List String :=
  List.insertionSort (fun a b => strLeB a b = true) l

/-- Descending sort of strings (`sorted(..., reverse=True)`). -/
def sortStringsDesc (l : List String) : List String :=
  List.insertionSort (fun a b => strLeB b a = true) l

/-- Python `max` over strings: first maximal element. -/
def maxString (l : List String) : String :=
  l.foldl (fun acc p => if strLtB acc p then p else acc) (l.headD "")

/-- pandas `Series.mode().iloc[0]`: the most frequent value; on ties
the lexicographically smallest (mode sorts its result). -/
def modeFirst (l : List String) : String :=
  let uniq := dedupKeepFirst l
  let maxCount := (uniq.map fun p => l.countP (· == p)).foldl max 0
  let modes := uniq.filter fun p => l.countP (· == p) == maxCount
  modes.foldl (fun acc p => if strLtB p acc then p else acc) (modes.headD "")

/-! ### Fuzzy matching (`difflib.SequenceMatcher` / `get_close_matches`)

The agent strings are far below difflib's autojunk threshold (200), so
no junk handling applies and the matcher reduces to the plain
longest-matching-block recursion. -/

/-- Ascending positions of `c` in `b` (difflib's `b2j` lists). -/
def indicesOf (c : Char) (b : List Char) : List Nat :=
  b.enum.filterMap fun p => if p.2 == c then some p.1 else none

/-- Lookup in the `j2len` association list (0 when absent). -/
def lookupD (l : List (Nat × Nat)) (k : Nat) : Nat :=
  ((l.find? fun p => p.1 == k).map (·.2)).getD 0

/-- One row of the `find_longest_match` dynamic program: process the
match positions `js` of `a[i]` in `b`, building the new `j2len` row and
updating the best block (strictly-greater updates keep the earliest
maximal block, as in difflib). -/
def flmRow (j2len : List (Nat × Nat)) (i : Nat) (js : List Nat) :
    (best : Nat × Nat × Nat) → List (Nat × Nat) × (Nat × Nat × Nat) :=
  fun best =>
    js.foldl
      (fun st j =>
        let k := (if j = 0 then 0 else lookupD j2len (j - 1)) + 1
        let best' := if st.2.2.2 < k then (i + 1 - k, j + 1 - k, k) else st.2
        ((j, k) :: st.1, best'))
      ([], best)

/-- The dynamic program of `SequenceMatcher.find_longest_match` over
the full strings (no junk): returns `(besti, bestj, bestsize)` before
the extension steps. -/
def findLongestMatchCore (a b : List Char) : Nat × Nat × Nat :=
  (a.enum.foldl
    (fun st p =>
      let row := flmRow st.1 p.1 (indicesOf p.2 b) st.2
      (row.1, row.2))
    ([], (0, 0, 0))).2

/-- Length of the longest common prefix. -/
def commonPrefixLen : List Char → List Char → Nat
  | a :: as, b :: bs => if a == b then commonPrefixLen as bs + 1 else 0
  | _, _ => 0

/-- Length of the longest common suffix. -/
def commonSuffixLen (x y : List Char) : Nat := commonPrefixLen x.reverse y.reverse

/-- `find_longest_match` with the block extended maximally on both
sides (with an empty junk set, difflib's two extension loops are
exactly the maximal common suffix/prefix extensions). -/
def findLongestMatch (a b : List Char) : Nat × Nat × Nat :=
  let core := findLongestMatchCore a b
  let back := commonSuffixLen (a.take core.1) (b.take core.2.1)
  let i := core.1 - back
  let j := core.2.1 - back
  let k := core.2.2 + back
  let fwd := commonPrefixLen (a.drop (i + k)) (b.drop (j + k))
  (i, j, k + fwd)

/-- Total size of the matching blocks of `get_matching_blocks`
(recursion on both sides of the longest block).  Each recursion level
removes at least one character from `a ++ b`, so `fuel`
`a.length + b.length + 1` never runs out. -/
def matchingTotalAux : Nat → List Char → List Char → Nat
  | 0, _, _ => 0
  | fuel + 1, a, b =>
    let m := findLongestMatch a b
    if m.2.2 = 0 then 0
    else
      matchingTotalAux fuel (a.take m.1) (b.take m.2.1) + m.2.2 +
        matchingTotalAux fuel (a.drop (m.1 + m.2.2)) (b.drop (m.2.1 + m.2.2))

/-- Total matched characters between `a` and `b`. -/
def matchingTotal (a b : List Char) : Nat :=
  matchingTotalAux (a.length + b.length + 1) a b

/-- `SequenceMatcher.ratio()` as an exact rational:
`2 * M / (len(a) + len(b))` (1 when both strings are empty). -/
def similarity (a b : String) : ℚ :=
  let la := a.data.length
  let lb := b.data.length
  if la + lb = 0 then 1
  else (2 * (matchingTotal a.data b.data : ℚ)) / ((la + lb : ℕ) : ℚ)

/-- `difflib.get_close_matches(word, possibilities, n, cutoff)`: keep
the possibilities whose ratio reaches the cutoff (the quick-ratio
prefilters are upper bounds of the ratio, so they do not change the
set), then `heapq.nlargest(n, ...)` on `(score, x)` pairs, which is
descending lexicographic order. -/
def getCloseMatches (word : String) (possibilities : List String) (n : Nat) (cutoff : ℚ) :
    List String :=
  let scored := possibilities.filterMap fun x =>
    let r := similarity x word
    if cutoff ≤ r then some (x, r) else none
  let sorted := List.insertionSort
    (fun p q : String × ℚ => q.2 < p.2 ∨ (q.2 = p.2 ∧ strLeB q.1 p.1 = true)) scored
  (sorted.take n).map (·.1)

/-! ### `CricketDataAnalyzer.get_player_stats` -/

/-- Python `set(s.split())`. -/
def wordSet (s : String) : List String := dedupKeepFirst (splitWords s)

/-- The three-strategy fuzzy resolution of `get_player_stats` (run only
when the case-insensitive substring filter found nothing): full-name
fuzzy match with word-coverage preference, then last-name word match
(ties broken by data volume, first maximal as Python `max`), then
unique first-name substring match. -/
def fuzzyResolve (ep : List Entry) (all_players : List String) (player_name : String) :
    Option String :=
  let close := getCloseMatches (lowerStr player_name) (all_players.map lowerStr) 3 (3 / 5)
  if close ≠ [] then
    let input_words := wordSet (lowerStr player_name)
    let chosen := close.find? fun m =>
      let match_words := wordSet m
      input_words.all (fun w => match_words.contains w) ||
        input_words.length ≤ (input_words.filter fun w => match_words.contains w).length
    match chosen with
    | some m => all_players.find? fun p => lowerStr p == m
    | none => all_players.find? fun p => lowerStr p == close.headD ""
  else
    let last_name :=
      if strContains player_name " " then (splitWords player_name).getLastD player_name
      else player_name
    let candidates := all_players.filter fun p =>
      (splitWords (lowerStr p)).contains (lowerStr last_name)
    match candidates with
    | [c] => some c
    | [] =>
      if strContains player_name " " then
        let first_name := (splitWords player_name).headD player_name
        match all_players.filter fun p => strContains (lowerStr p) (lowerStr first_name) with
        | [c] => some c
        | _ => none
      else none
    | cs =>
      let counts := cs.map fun p => (p, (ep.filter fun e => e.player == p).length)
      (counts.foldl
        (fun acc q =>
          match acc with
          | none => some q
          | some r => if r.2 < q.2 then some q else some r)
        none).map (·.1)

/-- The `player_data` row selection of `get_player_stats`:
case-insensitive substring filter first, then fuzzy resolution. -/
def resolvePlayerData (ep : List Entry) (player_name : String) : List Entry :=
  let direct := ep.filter fun e => strContains (lowerStr e.player) (lowerStr player_name)
  if direct ≠ [] then direct
  else
    let all_players := dedupKeepFirst (ep.map (·.player))
    match fuzzyResolve ep all_players player_name with
    | some m => ep.filter fun e => e.player == m
    | none => []

/-- Python `int(q)` (truncation toward zero). -/
def qtrunc (q : ℚ) : ℤ := if 0 ≤ q then ⌊q⌋ else -⌊-q⌋

/-- The recency classification of `get_player_stats` (the `except`
branch corresponds to an unparsable year). -/
def recencyOf (current_year most_recent_year : String) : String × ℚ :=
  match parseIntStr current_year, parseIntStr most_recent_year with
  | some c, some m =>
    let years_since_last := c - m
    if years_since_last = 0 then ("ACTIVE - Current season", 1)
    else if years_since_last = 1 then ("RECENT - Last season", 4 / 5)
    else if years_since_last ≤ 2 then ("SEMI-RECENT - 2 years ago", 3 / 5)
    else ("HISTORICAL - " ++ (toString years_since_last ++ " years ago"), 3 / 10)
  | _, _ => ("UNKNOWN", 1 / 2)

/-- The `recent_performance` / `historical_performance` sub-records. -/
structure RecentPerf where
  years : List String
  match_count : Nat
  avg_sr : ℚ
  avg_runs : ℚ
deriving DecidableEq

/-- The `phase_breakdown` sub-record. -/
structure PhaseBreakdown where
  powerplay : Nat
  middle : Nat
  death : Nat
deriving DecidableEq

/-- The statistics summary returned by `get_player_stats`
(`phase_performance` is the column-major `DataFrame.to_dict()`:
column name to phase to rounded mean). -/
structure PlayerStats where
  name : String
  total_matches : Nat
  avg_entry_over : ℚ
  avg_strike_rate : ℚ
  avg_dot_pct : ℚ
  avg_bnd_pct : ℚ
  avg_innings_duration : ℚ
  total_runs : ℤ
  avg_runs_per_match : ℚ
  best_strike_rate : ℚ
  teams : List String
  years : List String
  years_span : String
  most_recent_year : String
  recency_status : String
  recency_score : ℚ
  phase_breakdown : PhaseBreakdown
  phase_performance : List (String × List (String × ℚ))
  recent_performance : Option RecentPerf
  historical_performance : Option RecentPerf
deriving DecidableEq

/-- The summary construction of `get_player_stats` on the resolved
non-empty `player_data` (the full table `ep` supplies the dataset-wide
current year). -/
def playerStatsOfData (ep player_data : List Entry) : PlayerStats :=
  let full_name := modeFirst (player_data.map (·.player))
  let years := dedupKeepFirst (player_data.map (·.year))
  let years_sorted := sortStringsDesc years
  let most_recent_year := years_sorted.headD "Unknown"
  let years_span :=
    if 1 < years_sorted.length then years_sorted.getLastD "" ++ ("-" ++ years_sorted.headD "")
    else most_recent_year
  let all_years := dedupKeepFirst (ep.map (·.year))
  let current_year := if 0 < all_years.length then maxString all_years else "2026"
  let rec_pair := recencyOf current_year most_recent_year
  let recent_years := years_sorted.take 2
  let recent_data := player_data.filter fun e => recent_years.contains e.year
  let historical_data := player_data.filter fun e => !(recent_years.contains e.year)
  let phasesPresent := sortStringsAsc (dedupKeepFirst (player_data.map (·.entry_phase)))
  let perPhase := fun (f : Entry → ℚ) =>
    phasesPresent.map fun ph =>
      (ph, round1 (qmean ((player_data.filter (·.entry_phase == ph)).map f)))
  let recentBlock : RecentPerf :=
    { years := recent_years, match_count := recent_data.length,
      avg_sr := round1 (qmean (recent_data.map (·.final_strike_rate))),
      avg_runs := round1 (qmean (recent_data.map (·.runs))) }
  let historicalBlock : RecentPerf :=
    { years := years_sorted.filter fun y => !(recent_years.contains y),
      match_count := historical_data.length,
      avg_sr := round1 (qmean (historical_data.map (·.final_strike_rate))),
      avg_runs := round1 (qmean (historical_data.map (·.runs))) }
  { name := full_name,
    total_matches := player_data.length,
    avg_entry_over := round1 (qmean (player_data.map (·.entry_over))),
    avg_strike_rate := round1 (qmean (player_data.map (·.final_strike_rate))),
    avg_dot_pct := round1 (qmean (player_data.map (·.dot_pct))),
    avg_bnd_pct := round1 (qmean (player_data.map (·.bnd_pct))),
    avg_innings_duration := round1 (qmean (player_data.map (·.innings_duration))),
    total_runs := qtrunc (qsum (player_data.map (·.runs))),
    avg_runs_per_match := round1 (qmean (player_data.map (·.runs))),
    best_strike_rate := round1 (qmax (player_data.map (·.final_strike_rate))),
    teams := dedupKeepFirst (player_data.map (·.team)),
    years := years_sorted,
    years_span := years_span,
    most_recent_year := most_recent_year,
    recency_status := rec_pair.1,
    recency_score := rec_pair.2,
    phase_breakdown :=
      { powerplay := (player_data.filter (·.entry_phase == "Powerplay")).length,
        middle := (player_data.filter (·.entry_phase == "Middle")).length,
        death := (player_data.filter (·.entry_phase == "Death")).length },
    phase_performance :=
      [("Final_Strike_Rate", perPhase (·.final_strike_rate)), ("Runs", perPhase (·.runs)),
       ("Dot_Pct", perPhase (·.dot_pct)), ("Bnd_Pct", perPhase (·.bnd_pct))],
    recent_performance :=
      if recent_data ≠ [] then some recentBlock else none,
    historical_performance :=
      if recent_data ≠ [] ∧ historical_data ≠ [] then some historicalBlock else none }

/-- `CricketDataAnalyzer.get_player_stats`. -/
def getPlayerStats (ep : List Entry) (player_name : String) : Option PlayerStats :=
  let player_data := resolvePlayerData ep player_name
  if player_data = [] then none else some (playerStatsOfData ep player_data)

/-! ### Phase leaderboards (`get_best_players_for_phase` and friends) -/

/-- The `phase_map` dict shared by the phase queries. -/
def phase_map : List (String × String) :=
  [("powerplay", "Powerplay"), ("middle", "Middle"), ("death", "Death")]

/-- `phase_map.get(phase.lower(), phase)`. -/
def targetPhase (phase : String) : String := (phase_map.lookup (lowerStr phase)).getD phase

/-- One row of the per-player `groupby('Player').agg(...)` table:
mean strike rate, mean runs, mean dot and boundary percentages, and the
row count (the aggregated `Entry_Over` count column). -/
structure PhaseAgg where
  player : String
  sr : ℚ
  runs : ℚ
  dot : ℚ
  bnd : ℚ
  count : Nat
deriving DecidableEq

/-- The per-player aggregation over the rows of one entry phase
(`groupby` sorts the group keys). -/
def phaseAggregates (ep : List Entry) (target : String) : List PhaseAgg :=
  let filtered_data := ep.filter (·.entry_phase == target)
  let players := sortStringsAsc (dedupKeepFirst (filtered_data.map (·.player)))
  players.map fun p =>
    let rows := filtered_data.filter (·.player == p)
    { player := p,
      sr := qmean (rows.map (·.final_strike_rate)),
      runs := qmean (rows.map (·.runs)),
      dot := qmean (rows.map (·.dot_pct)),
      bnd := qmean (rows.map (·.bnd_pct)),
      count := rows.length }

/-- Descending strike-rate order on aggregate rows (`sort_values('Final_Strike_Rate', ascending=False)`). -/
def aggGE (a b : PhaseAgg) : Prop := b.sr ≤ a.sr

instance : DecidableRel aggGE := fun a b => inferInstanceAs (Decidable (b.sr ≤ a.sr))

instance : IsTotal PhaseAgg aggGE := ⟨fun a b => le_total b.sr a.sr⟩

instance : IsTrans PhaseAgg aggGE := ⟨fun _ _ _ h₁ h₂ => le_trans h₂ h₁⟩

/-- One row of the list returned by `get_best_players_for_phase`. -/
structure BestPlayerRow where
  player : String
  avg_strike_rate : ℚ
  avg_runs : ℚ
  avg_dot_pct : ℚ
  avg_bnd_pct : ℚ
  match_count : Nat
deriving DecidableEq

/-- The per-row result formatting of `get_best_players_for_phase` (the
source key for `match_count` is `'matches'`). -/
def formatBestRow (a : PhaseAgg) : BestPlayerRow :=
  { player := a.player,
    avg_strike_rate := round1 a.sr,
    avg_runs := round1 a.runs,
    avg_dot_pct := round1 a.dot,
    avg_bnd_pct := round1 a.bnd,
    match_count := a.count }

/-- The filter stages of `get_best_players_for_phase`: minimum match
count, then the optional strike-rate window. -/
def bestPlayersFiltered (ep : List Entry) (phase : String) (min_matches : Nat)
    (min_sr max_sr : Option ℚ) : List PhaseAgg :=
  let f1 := (phaseAggregates ep (targetPhase phase)).filter fun a => min_matches ≤ a.count
  let f2 := match min_sr with
    | some m => f1.filter fun a => m ≤ a.sr
    | none => f1
  match max_sr with
  | some m => f2.filter fun a => a.sr ≤ m
  | none => f2

/-- `CricketDataAnalyzer.get_best_players_for_phase`. -/
def getBestPlayersForPhase (ep : List Entry) (phase : String) (min_matches : Nat := 3)
    (top_n : Option Nat := none) (min_sr : Option ℚ := none) (max_sr : Option ℚ := none) :
    List BestPlayerRow :=
  let sorted := List.insertionSort aggGE (bestPlayersFiltered ep phase min_matches min_sr max_sr)
  let limited := match top_n with
    | some n => sorted.take n
    | none => sorted
  limited.map formatBestRow

/-- The summary record of `get_phase_summary`. -/
structure PhaseSummary where
  phase : String
  total_entries : Nat
  unique_players : Nat
  avg_strike_rate : ℚ
  avg_runs : ℚ
  avg_dot_pct : ℚ
  avg_bnd_pct : ℚ
deriving DecidableEq

/-- `CricketDataAnalyzer.get_phase_summary`. -/
def getPhaseSummary (ep : List Entry) (phase : String) : PhaseSummary :=
  let target := targetPhase phase
  let filtered_data := ep.filter (·.entry_phase == target)
  { phase := target,
    total_entries := filtered_data.length,
    unique_players := (dedupKeepFirst (filtered_data.map (·.player))).length,
    avg_strike_rate := round1 (qmean (filtered_data.map (·.final_strike_rate))),
    avg_runs := round1 (qmean (filtered_data.map (·.runs))),
    avg_dot_pct := round1 (qmean (filtered_data.map (·.dot_pct))),
    avg_bnd_pct := round1 (qmean (filtered_data.map (·.bnd_pct))) }

/-- pandas `DataFrame.nlargest(n, key)`: stable descending order by
key, first `n` rows (`keep='first'` on ties). -/
def nlargestBy (key : PhaseAgg → ℚ) (n : Nat) (l : List PhaseAgg) : List PhaseAgg :=
  (List.insertionSort (fun a b => key b ≤ key a) l).take n

/-- pandas `DataFrame.nsmallest(n, key)`. -/
def nsmallestBy (key : PhaseAgg → ℚ) (n : Nat) (l : List PhaseAgg) : List PhaseAgg :=
  (List.insertionSort (fun a b => key a ≤ key b) l).take n

/-- `nlargest` by the integer match count column. -/
def nlargestByCount (n : Nat) (l : List PhaseAgg) : List PhaseAgg :=
  (List.insertionSort (fun a b : PhaseAgg => b.count ≤ a.count) l).take n

/-- One formatted row of `_format_player_list` (the source key for
`match_count` is `'matches'`). -/
structure DiversePlayerRow where
  player : String
  avg_strike_rate : ℚ
  avg_runs : ℚ
  match_count : Nat
  dot_pct : ℚ
  bnd_pct : ℚ
  description : String
deriving DecidableEq

/-- `CricketDataAnalyzer._format_player_list`. -/
def formatPlayerList (l : List PhaseAgg) (description : String) : List DiversePlayerRow :=
  l.map fun a =>
    { player := a.player,
      avg_strike_rate := round1 a.sr,
      avg_runs := round1 a.runs,
      match_count := a.count,
      dot_pct := round1 a.dot,
      bnd_pct := round1 a.bnd,
      description := description }

/-- `CricketDataAnalyzer.get_diverse_players_for_phase`: the six
category lists, as the insertion-ordered `categories` dict. -/
def getDiversePlayersForPhase (ep : List Entry) (phase : String) (min_matches : Nat := 3) :
    List (String × List DiversePlayerRow) :=
  let pp := (phaseAggregates ep (targetPhase phase)).filter fun a => min_matches ≤ a.count
  [("aggressive_strikers", formatPlayerList (nlargestBy (·.sr) 15 pp) "High strike rate"),
   ("consistent_scorers", formatPlayerList (nlargestBy (·.runs) 15 pp) "High average runs"),
   ("boundary_hitters", formatPlayerList (nlargestBy (·.bnd) 15 pp) "High boundary %"),
   ("strike_rotators", formatPlayerList (nsmallestBy (·.dot) 15 pp) "Low dot %, good rotation"),
   ("experienced", formatPlayerList (nlargestByCount 15 pp) "Most matches played"),
   ("balanced",
     formatPlayerList
       (nlargestBy (·.runs) 15 (pp.filter fun a => 120 ≤ a.sr ∧ a.sr ≤ 150))
       "Balanced SR 120-150")]

/-- One record of the `top_performers` list of `get_team_strategy`. -/
structure TeamTopPerformer where
  player : String
  final_strike_rate : ℚ
  entry_over : ℚ
deriving DecidableEq

/-- The strategy record of `get_team_strategy`. -/
structure TeamStrategy where
  team : String
  total_entries : Nat
  avg_entry_over : ℚ
  phase_distribution : List (String × Nat)
  top_performers : List TeamTopPerformer
deriving DecidableEq

/-- `CricketDataAnalyzer.get_team_strategy` (`none` models the empty
dict returned when no rows match the team filter). -/
def getTeamStrategy (ep : List Entry) (team_name : String) : Option TeamStrategy :=
  let team_data := ep.filter fun e => strContains (lowerStr e.team) (lowerStr team_name)
  match team_data with
  | [] => none
  | e₀ :: _ =>
    let phases := dedupKeepFirst (team_data.map (·.entry_phase))
    let dist := phases.map fun ph => (ph, (team_data.filter (·.entry_phase == ph)).length)
    let top := (List.insertionSort
        (fun a b : Entry => b.final_strike_rate ≤ a.final_strike_rate) team_data).take 5
    some
      { team := e₀.team,
        total_entries := team_data.length,
        avg_entry_over := round1 (qmean (team_data.map (·.entry_over))),
        phase_distribution :=
          List.insertionSort (fun a b : String × Nat => b.2 ≤ a.2) dist,
        top_performers := top.map fun e =>
          { player := e.player, final_strike_rate := e.final_strike_rate,
            entry_over := e.entry_over } }

/-- `CricketDataAnalyzer.compare_players`: the comparison dict keyed by
resolved name (dict update semantics: an existing key keeps its
position and takes the new, identical value). -/
def comparePlayersOp (ep : List Entry) (player_names : List String) :
    List (String × PlayerStats) :=
  player_names.foldl
    (fun acc n =>
      match getPlayerStats ep n with
      | some s =>
        if acc.any (·.1 == s.name) then
          acc.map fun p => if p.1 == s.name then (s.name, s) else p
        else acc ++ [(s.name, s)]
      | none => acc)
    []

/-! ### Action execution (`ReActCricketAgent._execute_action`)

The analyzer embedding is total, so the blanket `except` branch of
`_execute_action` (which would stringify an exception) is unreachable
and has no constructor here. -/

/-- The dynamic result of one executed action (`nil` models Python
`None`; `team` carries `none` for the empty dict of a failed team
lookup). -/
inductive ActionResult where
  | nil : ActionResult
  | note (s : String) : ActionResult
  | stats (s : PlayerStats) : ActionResult
  | phaseList (l : List BestPlayerRow) : ActionResult
  | diverse (d : List (String × List DiversePlayerRow)) : ActionResult
  | comparison (c : List (String × PlayerStats)) : ActionResult
  | team (t : Option TeamStrategy) : ActionResult

/-- `ReActCricketAgent._execute_action`. -/
def executeAction (ep : List Entry) (action : String) : ActionResult :=
  match splitFirstChar action ':' with
  | none => .nil
  | some (action_type, param) =>
    if action_type = "note" then
      if param = "bowling_type_unavailable" then
        .note "IMPORTANT: Bowling type data (spin/pace) is not available in the dataset. Analysis is based on entry phase (Powerplay/Middle/Death) only."
      else .nil
    else if action_type = "get_player_stats" then
      match getPlayerStats ep param with
      | some r => .stats r
      | none =>
        match (splitWords param).filterMap (fun w => getPlayerStats ep w) with
        | r :: _ => .stats r
        | [] => .nil
    else if action_type = "get_best_players_for_phase" then
      .phaseList (getBestPlayersForPhase ep param)
    else if action_type = "get_diverse_players_for_phase" then
      .diverse (getDiversePlayersForPhase ep param)
    else if action_type = "compare_players" then
      .comparison (comparePlayersOp ep (splitCharKeep param ','))
    else if action_type = "get_team_strategy" then
      .team (getTeamStrategy ep param)
    else .nil

/-! ### Observation builder (`ReActCricketAgent._analyze_results`) -/

/-- Python `str.title()` (ASCII): upper-case at word starts, lower-case
elsewhere. -/
def titleCase (s : String) : String :=
  String.mk (go s.data true)
where
  go : List Char → Bool → List Char
    | [], _ => []
    | c :: t, boundary => (if boundary then c.toUpper else c.toLower) :: go t (!c.isAlpha)

/-- A string of `n` copies of `c` (Python `c * n`). -/
def repeatChar (c : Char) (n : Nat) : String := String.mk (List.replicate n c)

/-- Python `str(dict)` for one inner phase-to-value dict of
`phase_performance`. -/
def fmtPhaseDict (d : List (String × ℚ)) : String :=
  "\x7b" ++ String.intercalate ", "
    (d.map fun p => "\x27" ++ p.1 ++ "\x27: " ++ fmtTenths p.2) ++ "\x7d"

/-- Python `str(dict)` for the column-major `phase_performance` dict. -/
def fmtPhasePerf (pp : List (String × List (String × ℚ))) : String :=
  "\x7b" ++ String.intercalate ", "
    (pp.map fun c => "\x27" ++ c.1 ++ "\x27: " ++ fmtPhaseDict c.2) ++ "\x7d"

/-- The `RECENT PERFORMANCE` / `HISTORICAL PERFORMANCE` sub-blocks of
the player observation. -/
def perfBlock (label : String) (p : RecentPerf) : String :=
  String.join
    ["\n- ", label, " (", String.intercalate ", " p.years, "):\n  * Matches: ",
     toString p.match_count, "\n  * Avg Strike Rate: ", fmtTenths p.avg_sr,
     "\n  * Avg Runs: ", fmtTenths p.avg_runs, "\n"]

/-- The `PLAYER DATA FOR ...` observation block. -/
def playerObs (r : PlayerStats) : String :=
  String.join
    ["\nPLAYER DATA FOR ", upperStr r.name, ":\n- Total Matches: ", toString r.total_matches,
     "\n- Years Active: ", r.years_span, " (Most Recent: ", r.most_recent_year,
     ")\n- Recency Status: ", r.recency_status, " (Score: ", fmtTenths r.recency_score,
     ")\n- Average Entry Over: ", fmtTenths r.avg_entry_over,
     "\n- Average Innings Duration: ", fmtTenths r.avg_innings_duration,
     " overs\n- Average Strike Rate: ", fmtTenths r.avg_strike_rate,
     "\n- Average Dot Ball %: ", fmtTenths r.avg_dot_pct,
     "%\n- Average Boundary %: ", fmtTenths r.avg_bnd_pct,
     "%\n- Total Runs: ", toString r.total_runs,
     "\n- Avg Runs per Match: ", fmtTenths r.avg_runs_per_match,
     "\n- Best Strike Rate: ", fmtTenths r.best_strike_rate,
     "\n- Phase Breakdown: Powerplay=", toString r.phase_breakdown.powerplay,
     ", Middle=", toString r.phase_breakdown.middle,
     ", Death=", toString r.phase_breakdown.death,
     "\n- Phase Performance: ", fmtPhasePerf r.phase_performance, "\n"] ++
  (match r.recent_performance with
   | some p => perfBlock "RECENT PERFORMANCE" p
   | none => "") ++
  (match r.historical_performance with
   | some p => perfBlock "HISTORICAL PERFORMANCE" p
   | none => "")

/-- The `TOP PERFORMERS FOR ...` observation block. -/
def topObs (phase : String) (l : List BestPlayerRow) : String :=
  let player_list := l.map fun p =>
    String.join
      [p.player, " (SR: ", fmtTenths p.avg_strike_rate, ", ", toString p.match_count,
       " matches, Avg Runs: ", fmtTenths p.avg_runs, ")"]
  let numbered := player_list.enum.map fun q => "  " ++ toString (q.1 + 1) ++ ". " ++ q.2
  String.join
    ["\nTOP PERFORMERS FOR ", upperStr phase, " PHASE:\n",
     String.intercalate "\n" numbered,
     "\n\nTotal players analyzed: ", toString l.length, "\n"]

/-- The `DIVERSE PLAYER POOL FOR ...` observation block. -/
def divObs (phase : String) (d : List (String × List DiversePlayerRow)) : String :=
  let cats := d.map fun c =>
    "\n" ++ titleCase (underscoreToSpace c.1) ++ ":\n" ++
      String.join (c.2.enum.map fun q =>
        String.join
          ["  ", toString (q.1 + 1), ". ", q.2.player,
           " - SR: ", fmtTenths q.2.avg_strike_rate,
           ", Runs: ", fmtTenths q.2.avg_runs, ", ",
           "Matches: ", toString q.2.match_count,
           ", Dot%: ", fmtTenths q.2.dot_pct,
           ", Bnd%: ", fmtTenths q.2.bnd_pct, "\n"])
  String.join
    ["\nDIVERSE PLAYER POOL FOR ", upperStr phase, " PHASE:\n", repeatChar '=' 60, "\n",
     String.join cats,
     "\nTotal categories: ", toString d.length, "\n",
     "Note: Players may appear in multiple categories based on their strengths\n"]

/-- `ReActCricketAgent._analyze_results`. -/
def analyzeResults (results : List (String × ActionResult)) (entities : Entities) : String :=
  let limitation :=
    if entities.bowling_types ≠ [] then
      ["\n⚠️ DATA LIMITATION NOTICE:\nThe question mentions bowling type (" ++
        (String.intercalate ", " entities.bowling_types ++
        "), but the dataset does not contain bowling type information.\nAnalysis is based on ENTRY PHASE (Powerplay/Middle/Death) only, not specific bowling matchups.\n")]
    else []
  let blocks := results.filterMap fun pr =>
    match pr.2 with
    | .nil => none
    | res =>
      if strBeginsWith pr.1 "note:" then
        match res with
        | .note s => some s
        | _ => none
      else
        let action_type := (splitCharKeep pr.1 ':').headD ""
        let phase := (splitCharKeep pr.1 ':').getD 1 ""
        match res with
        | .stats r => if action_type = "get_player_stats" then some (playerObs r) else none
        | .phaseList l =>
          if action_type = "get_best_players_for_phase" ∧ l ≠ [] then some (topObs phase l)
          else none
        | .diverse d =>
          if action_type = "get_diverse_players_for_phase" ∧ d ≠ [] then some (divObs phase d)
          else none
        | _ => none
  let observations := limitation ++ blocks
  if observations = [] then "No specific data retrieved"
  else String.intercalate "\n" observations

/-! ### Response generator (`ReActCricketAgent._generate_response`) -/

/-- `json.dumps` (indent 2) of a string list nested at one level. -/
def jsonStrList (l : List String) : String :=
  if l = [] then "[]"
  else "[\n" ++ String.intercalate ",\n" (l.map fun s => "    \"" ++ s ++ "\"") ++ "\n  ]"

/-- `json.dumps(entities, indent=2)`. -/
def entitiesJson (e : Entities) : String :=
  String.join
    ["\x7b\n  \"players\": ", jsonStrList e.players,
     ",\n  \"teams\": ", jsonStrList e.teams,
     ",\n  \"bowling_types\": ", jsonStrList e.bowling_types,
     ",\n  \"phases\": ", jsonStrList e.phases,
     ",\n  \"intent\": \"", e.intent, "\"\n\x7d"]

/-- The fixed rules section of the main prompt (everything after the
`PLAYERS WITH ACTUAL DATA AVAILABLE` line). -/
def promptRules : String :=
  "⚠️ DATASET LIMITATIONS:
- The dataset contains: Player, Team, Match, Over, Runs, BF, Strike Rate, Dot%, Bnd%, Entry Phase
- The dataset DOES NOT contain: Bowling type (spin/pace), bowler names, ball-by-ball details
- If the question asks about \"spin\" or \"pace\", you MUST clarify that we can only analyze by phase (Powerplay/Middle/Death)
- Analysis is based on WHEN players enter (phase), not WHO they face (bowling type)

🚨 CRITICAL VALIDATION RULES - YOU MUST FOLLOW THESE:

1. **MANDATORY DATA USAGE**:
   - If \"PLAYER DATA FOR [NAME]\" appears, you MUST use that player\x27s specific statistics
   - If \"TOP PERFORMERS FOR [PHASE]\" appears, you MUST reference those players and their stats
   - Quote ACTUAL numbers from the observations (strike rates, matches, etc.)
   - Base ALL recommendations on the data provided in observations
   - **FOR BATTING ORDER QUESTIONS**: Use players from ALL THREE phases (Powerplay, Middle, Death)

2. **BATTING ORDER SPECIFIC RULES**:
   - If the question asks for a \"batting order\" or \"lineup\", you MUST recommend players for ALL positions (1-11)
   - You will receive DIVERSE PLAYER POOLS with different categories:
     * Aggressive Strikers: High strike rate players for quick scoring
     * Consistent Scorers: High average runs, reliable performers
     * Boundary Hitters: High boundary %, power hitters
     * Strike Rotators: Low dot %, good at rotating strike
     * Experienced: Most matches, proven track record
     * Balanced: SR 120-150, all-round contributors
   - Mix and match from these categories based on the match situation
   - For chasing 180+: Prioritize aggressive strikers and boundary hitters
   - For building innings: Use balanced players and strike rotators
   - For death overs: Use experienced finishers with high SR
   - DO NOT only pick from one category - create a balanced lineup

3. **FORBIDDEN REASONING PATTERNS**:
   ❌ \"No data available\" when observations contain TOP PERFORMERS
   ❌ \"Player X is not in the top 3, so they\x27re not suitable\"
   ❌ Claiming to analyze \"against spin\" when we only have phase data
   ❌ Making recommendations without citing actual statistics from observations
   ❌ Ignoring the TOP PERFORMERS data when answering \"who is best\" questions
   ❌ Stopping at position 3 when asked for a full batting order

4. **REQUIRED REASONING PATTERNS**:
   ✅ \"Based on the data, the top death over performers are [names from observations]...\"
   ✅ \"Player X has SR [NUMBER] across [NUMBER] matches (from observations)...\"
   ✅ \"The TOP PERFORMERS data shows [specific players and their stats]...\"
   ✅ \"Comparing the provided statistics: [reference actual numbers]...\"
   ✅ \"For the middle order (positions 4-7), the data shows [list players with stats]...\"

5. **DATA-DRIVEN ANALYSIS FRAMEWORK**:
   - Start with the player\x27s ACTUAL statistics
   - Analyze what those numbers mean for different match situations
   - Compare to phase averages or benchmarks (not just top performers)
   - Identify scenarios where their stats indicate effectiveness
   - Provide nuanced tactical recommendations based on their data

6. **RECENCY CONSIDERATION**:
   - ALWAYS note the player\x27s recency status (ACTIVE, RECENT, HISTORICAL)
   - If player is HISTORICAL (retired/inactive), clearly state this upfront
   - For HISTORICAL players, acknowledge data is from past years
   - For ACTIVE players, emphasize current relevance
   - Compare recent vs historical performance when available

7. **SAMPLE SIZE CONSIDERATION**:
   - Always mention the number of matches in the player\x27s data
   - Higher sample sizes (20+ matches) = more reliable patterns
   - Lower sample sizes (3-10 matches) = acknowledge limited data but still analyze what\x27s there

8. **VALIDATION CHECK** (You must pass this):
   - If player data exists in observations, your response MUST quote at least 3 specific numbers from their data
   - Your response MUST explain what those numbers mean tactically
   - Your response MUST NOT rely solely on \"top performers\" comparisons
   - For batting order questions, you MUST recommend at least 11 players across all phases

EXAMPLE OF CORRECT RESPONSE (ACTIVE PLAYER):
\"Based on the data, [Player Name] is currently active (2025 season) with 45 matches and an
average strike rate of 125.3. Their recent performance (2024-2025) shows 25 matches with SR
130.2, indicating improving form. This makes them a strong current option for scenarios
requiring 7-8 runs per over during middle overs.\"

EXAMPLE OF CORRECT RESPONSE (RETIRED PLAYER):
\"Important Note: [Player Name] last played in 2022 (HISTORICAL status), so this analysis is
based on past performance. During their career, they had 45 matches with SR 125.3. While they
were effective for middle-over consolidation, you\x27ll need to consider current squad members
for active deployment decisions.\"

Now provide your comprehensive, data-driven answer following ALL the rules above.
"

/-- The main prompt of `_generate_response`. -/
def mainPrompt (question : String) (entities : Entities)
    (observations data_availability : String) : String :=
  String.join
    ["\nYou are an expert cricket strategy coach using ReAct methodology (Reasoning + Acting).\n\nQUESTION: ",
     question, "\n\nEXTRACTED ENTITIES: ", entitiesJson entities,
     "\n\nDATA ANALYSIS OBSERVATIONS:\n", observations,
     "\n\nPLAYERS WITH ACTUAL DATA AVAILABLE: ", data_availability, "\n\n", promptRules]

/-- The simplified retry prompt used when the first reply merely echoes
the observations. -/
def simplifiedPrompt (question observations : String) : String :=
  String.join
    ["\nYou are a cricket coach. Answer this question using the player data below:\n\nQUESTION: ",
     question, "\n\nPLAYER DATA:\n", observations,
     "\n\nProvide a clear answer that:\n1. States the player\x27s actual statistics (matches, strike rate, entry over)\n2. Explains what those numbers mean for cricket strategy\n3. Recommends when/how to use the player based on their data\n\nKeep it conversational and practical.\n"]

/-- The deterministic fallback answer assembled when the external
client raises (the `except` branch of `_generate_response`). -/
def fallbackResponse (observations e : String) : String :=
  "Based on the data analysis:\n\n" ++
    (observations ++
      ("\n\nStrategic Recommendation: The data shows specific performance metrics that should guide deployment decisions. Consider the player\x27s actual strike rate, entry patterns, and match situations where their statistics indicate effectiveness.\n\n(Note: Full AI analysis unavailable due to: " ++
        (e ++ ")")))

/-- The `try` block of `_generate_response`: any `Except.error`
corresponds to an exception raised by a `generate_content` call.  Note
that the final name check tests against `response_lower`, which Python
computes from the first reply and does not refresh after the
simplified-prompt retry. -/
def generateResponseCore (ai : String → Except String String) (question : String)
    (entities : Entities) (observations : String) : Except String String := do
  let player_data_sections :=
    (splitCharKeep observations '\n').filter fun line => strContains line "PLAYER DATA FOR"
  let players_with_data := player_data_sections.map fun sec =>
    trimSpaces ((splitCharKeep ((splitOnSub sec "PLAYER DATA FOR").getD 1 "") ':').headD "")
  let has_top_performers := strContains observations "TOP PERFORMERS FOR"
  let data_availability :=
    if players_with_data ≠ [] then String.intercalate ", " players_with_data
    else if has_top_performers then "Top performers data available (see observations)"
    else "None - general analysis only"
  let response_text ← ai (mainPrompt question entities observations data_availability)
  if players_with_data = [] then
    return response_text
  else
    let response_lower := lowerStr response_text
    let rt ←
      if strBeginsWith response_text "Based on the data analysis:" &&
          strContains response_text observations then
        ai (simplifiedPrompt question observations)
      else pure response_text
    if !(players_with_data.any fun p => strContains response_lower (lowerStr p)) then
      return "Analyzing " ++ String.intercalate ", " players_with_data ++ (":\n\n" ++ rt)
    else
      return rt

/-- `ReActCricketAgent._generate_response`. -/
def generateResponse (ai : String → Except String String) (question : String)
    (entities : Entities) (observations : String) : String :=
  match generateResponseCore ai question entities observations with
  | .ok t => t
  | .error e => fallbackResponse observations e

/-! ### The agent (`ReActCricketAgent.answer_question`) -/

/-- One `conversation_history` record. -/
structure ConversationTurn where
  question : String
  entities : Entities
  actions : List String
  results : List (String × ActionResult)
  answer : String

/-- The analyzer object: its only state is the derived `entry_points`
table, read but never written by its methods. -/
structure CricketDataAnalyzerState where
  entry_points : List Entry

/-- `get_player_stats` as a call on the analyzer object: result plus
the analyzer state after the call. -/
def getPlayerStatsCall (s : CricketDataAnalyzerState) (player_name : String) :
    Option PlayerStats × CricketDataAnalyzerState :=
  (getPlayerStats s.entry_points player_name, s)

/-- The agent object: analyzer, external model client, history. -/
structure AgentState where
  analyzer : CricketDataAnalyzerState
  ai_model : String → Except String String
  conversation_history : List ConversationTurn

/-- `ReActCricketAgent.answer_question`: validate, extract, plan,
execute (the `action_results` dict deduplicates repeated action
tokens), observe, respond, append to history.  Returns the reply and
the updated agent state. -/
def answerQuestion (s : AgentState) (question : String) : String × AgentState :=
  let validation_result := validateQuestion question
  if validation_result.is_valid = false then
    ((validation_result.message).getD "", s)
  else
    let entities := extractEntities question
    let planned_actions := reasonAndPlan question entities
    let action_results := (dedupKeepFirst planned_actions).map fun a =>
      (a, executeAction s.analyzer.entry_points a)
    let observations := analyzeResults action_results entities
    let final_answer := generateResponse s.ai_model question entities observations
    (final_answer,
      { s with
        conversation_history := s.conversation_history ++
          [{ question := question, entities := entities, actions := planned_actions,
             results := action_results, answer := final_answer }] })

/-! ### Concrete sample data for witnesses and scenario checks -/

/-- A raw entry row with the given player, identifiers, entry over,
runs and balls faced (the remaining numeric columns are zeroed). -/
def sampleRow (player team match_id year : String) (entry_over runs bf : ℚ) : EntryRow :=
  { player := player, team := team, match_id := match_id, year := year,
    entry_over := entry_over, exit_over := entry_over, overs_played := 1,
    runs := runs, bf := bf, strike_rate := 0, dot_pct := 0, bnd_pct := 0,
    innings_duration := 1 }

/-- A small dataset: one death-phase regular and one death-phase
one-off player. -/
def sampleEp : List Entry :=
  mkEntryPoints
    [sampleRow "Alice" "T1" "M1" "2024" 17 30 20,
     sampleRow "Alice" "T1" "M2" "2024" 18 30 20,
     sampleRow "Alice" "T1" "M3" "2024" 19 30 20,
     sampleRow "Bob" "T1" "M1" "2024" 18 10 10]

/-- The single leaderboard row produced from `sampleEp` for the Death
phase at three minimum matches. -/
def sampleBestRow : BestPlayerRow :=
  { player := "Alice", avg_strike_rate := 150, avg_runs := 30,
    avg_dot_pct := 0, avg_bnd_pct := 0, match_count := 3 }

/-- A dataset containing the player `Virat Kohli` among others. -/
def kohliEp : List Entry :=
  mkEntryPoints
    [sampleRow "Virat Kohli" "RCB" "M1" "2024" 3 50 40,
     sampleRow "Virat Kohli" "RCB" "M2" "2024" 2 40 30,
     sampleRow "Rohit Sharma" "MI" "M1" "2024" 1 30 25,
     sampleRow "MS Dhoni" "CSK" "M1" "2023" 12 20 10]

/-- An entities record with no extracted entities. -/
def emptyEntities : Entities :=
  { players := [], teams := [], bowling_types := [], phases := [], intent := "general" }

/-- An entities record whose only content is a bowling-type keyword. -/
def noteOnlyEntities : Entities :=
  { players := [], teams := [], bowling_types := ["spin"], phases := [], intent := "general" }

/-- An external model client that raises on every call. -/
def offlineModel : String → Except String String := fun _ => Except.error "offline"

/-- A concrete agent over `kohliEp` with the failing client and empty
history. -/
def sampleAgent : AgentState :=
  { analyzer := { entry_points := kohliEp }, ai_model := offlineModel,
    conversation_history := [] }

/-! ### Helper lemmas: strings -/

theorem listBeginsWith_self_append (y z : List Char) : listBeginsWith y (y ++ z) = true := by
  induction y with
  | nil => rfl
  | cons c t ih => simp [listBeginsWith, ih]

theorem listHasSub_nil_needle (h : List Char) : listHasSub h [] = true := by
  cases h <;> simp [listHasSub, listBeginsWith, List.isEmpty]

theorem listHasSub_append_mid (x y z : List Char) : listHasSub (x ++ (y ++ z)) y = true := by
  induction x with
  | nil =>
    cases y with
    | nil => simpa using listHasSub_nil_needle z
    | cons c t =>
      show listHasSub ((c :: t) ++ z) (c :: t) = true
      unfold listHasSub
      rw [listBeginsWith_self_append]
      simp
  | cons c t ih =>
    show listHasSub (c :: (t ++ (y ++ z))) y = true
    unfold listHasSub
    rw [ih]
    simp

theorem strContains_append_mid (a b c : String) : strContains (a ++ (b ++ c)) b = true := by
  unfold strContains
  rw [String.data_append, String.data_append]
  exact listHasSub_append_mid a.data b.data c.data

theorem append_ne_empty_left (s t : String) (h : s.data ≠ []) : s ++ t ≠ "" := by
  intro he
  apply h
  have hd := congrArg String.data he
  rw [String.data_append] at hd
  exact (List.append_eq_nil.mp hd).1

/-! ### Helper lemmas: rounding -/

theorem roundHalfEven_le (q : ℚ) : (roundHalfEven q : ℚ) ≤ q + 1 / 2 := by
  unfold roundHalfEven
  split
  · rename_i h
    split <;> push_cast <;> linarith
  · have := Int.floor_le (q + 1 / 2)
    linarith

theorem le_roundHalfEven (q : ℚ) : q - 1 / 2 ≤ (roundHalfEven q : ℚ) := by
  unfold roundHalfEven
  split
  · rename_i h
    split <;> push_cast <;> linarith
  · have := Int.lt_floor_add_one (q + 1 / 2)
    linarith

theorem roundHalfEven_mono {a b : ℚ} (hab : a ≤ b) : roundHalfEven a ≤ roundHalfEven b := by
  by_contra hlt
  push_neg at hlt
  have h1 : (roundHalfEven b : ℚ) + 1 ≤ (roundHalfEven a : ℚ) := by
    exact_mod_cast Int.add_one_le_iff.mpr hlt
  have h2 := roundHalfEven_le a
  have h3 := le_roundHalfEven b
  have hba : b ≤ a := by linarith
  have hab' : a = b := le_antisymm hab hba
  subst hab'
  exact absurd hlt (lt_irrefl _)

theorem round1_mono {a b : ℚ} (hab : a ≤ b) : round1 a ≤ round1 b := by
  unfold round1
  have h : roundHalfEven (10 * a) ≤ roundHalfEven (10 * b) :=
    roundHalfEven_mono (by linarith)
  have h' : ((roundHalfEven (10 * a) : ℤ) : ℚ) ≤ ((roundHalfEven (10 * b) : ℤ) : ℚ) := by
    exact_mod_cast h
  linarith

/-! ### Helper lemmas: the validator scan -/

theorem scanKeywordList_eq_some (ql : String) (kws : List String) (k : String)
    (h : scanKeywordList ql kws = some k) : k ∈ kws ∧ triggersKeyword ql k = true := by
  induction kws with
  | nil => cases h
  | cons a rest ih =>
    by_cases ha : triggersKeyword ql a = true
    · rw [scanKeywordList, if_pos ha] at h
      cases h
      exact ⟨List.mem_cons_self _ _, ha⟩
    · rw [scanKeywordList, if_neg ha] at h
      obtain ⟨hmem, htr⟩ := ih h
      exact ⟨List.mem_cons_of_mem a hmem, htr⟩

theorem scanKeywordList_eq_none (ql : String) (kws : List String) :
    scanKeywordList ql kws = none ↔ ∀ k ∈ kws, triggersKeyword ql k = false := by
  induction kws with
  | nil => simp [scanKeywordList]
  | cons a rest ih =>
    by_cases ha : triggersKeyword ql a = true
    · simp [scanKeywordList, ha]
    · have ha' : triggersKeyword ql a = false := by
        revert ha
        cases triggersKeyword ql a <;> simp
      simp [scanKeywordList, ha', ih]

theorem scanConcepts_eq_none (ql : String) (cs : List (String × List String)) :
    scanConcepts ql cs = none ↔ ∀ p ∈ cs, ∀ k ∈ p.2, triggersKeyword ql k = false := by
  induction cs with
  | nil => simp [scanConcepts]
  | cons p rest ih =>
    obtain ⟨c, kws⟩ := p
    cases hsk : scanKeywordList ql kws with
    | some k =>
      obtain ⟨hkmem, hktr⟩ := scanKeywordList_eq_some ql kws k hsk
      simp only [scanConcepts, hsk]
      constructor
      · intro h; cases h
      · intro hall
        exact absurd (hall (c, kws) (List.mem_cons_self _ _) k hkmem) (by simp [hktr])
    | none =>
      have hk := (scanKeywordList_eq_none ql kws).mp hsk
      simp only [scanConcepts, hsk]
      rw [ih, List.forall_mem_cons]
      simp only [eq_self_iff_true, true_iff, iff_true]
      constructor
      · intro h; exact ⟨hk, h⟩
      · intro h; exact h.2

theorem validateQuestion_valid_iff (q : String) :
    (validateQuestion q).is_valid = true ↔
      scanConcepts (lowerStr q) unavailable_concepts = none := by
  cases h : scanConcepts (lowerStr q) unavailable_concepts with
  | none => simp [validateQuestion, h]
  | some pr => simp [validateQuestion, h]

theorem messageFor_ne_empty (c kw : String) : messageFor c kw ≠ "" := by
  unfold messageFor
  split
  · exact append_ne_empty_left _ _ (by decide)
  · split <;> exact append_ne_empty_left _ _ (by decide)

theorem validate_invalid_of_trigger (q kw : String) (hin : kw ∈ forbiddenKeywords)
    (ht : triggersKeyword (lowerStr q) kw = true) :
    (validateQuestion q).is_valid = false ∧
      ∃ m, (validateQuestion q).message = some m ∧ m ≠ "" := by
  cases hsc : scanConcepts (lowerStr q) unavailable_concepts with
  | none =>
    exfalso
    have hall := (scanConcepts_eq_none _ _).mp hsc
    obtain ⟨l, hl, hkl⟩ :=
      List.mem_flatten.mp
        (show kw ∈ (unavailable_concepts.map Prod.snd).flatten from hin)
    obtain ⟨p, hp, hpe⟩ := List.mem_map.mp hl
    have := hall p hp kw (by rw [hpe]; exact hkl)
    simp [ht] at this
  | some pr =>
    obtain ⟨c, k⟩ := pr
    exact ⟨by simp [validateQuestion, hsc], messageFor c k,
      by simp [validateQuestion, hsc], messageFor_ne_empty c k⟩

/-! ### Claim theorems -/

/-- C1: a question containing a forbidden keyword with no exception
satisfied (exceptions exist only for the keyword `against`) is rejected
by `_validate_question` with a non-empty message; conversely, a
question containing no forbidden keyword as a substring of its
lower-casing is accepted. -/
theorem validateQuestion_spec (q : String) :
    ((∃ kw ∈ forbiddenKeywords, strContains (lowerStr q) kw = true ∧
        ¬(kw = "against" ∧ againstException (lowerStr q) = true)) →
      (validateQuestion q).is_valid = false ∧
        ∃ m, (validateQuestion q).message = some m ∧ m ≠ "") ∧
    ((∀ kw ∈ forbiddenKeywords, strContains (lowerStr q) kw = false) →
      (validateQuestion q).is_valid = true) := by
  constructor
  · rintro ⟨kw, hin, hsub, hexc⟩
    apply validate_invalid_of_trigger q kw hin
    unfold triggersKeyword
    rw [hsub]
    cases hkw : (kw == "against") with
    | false => simp [hkw]
    | true =>
      have hkw' : kw = "against" := eq_of_beq hkw
      cases hex : againstException (lowerStr q) with
      | false => simp [hkw, hex]
      | true => exact absurd ⟨hkw', hex⟩ hexc
  · intro hall
    rw [validateQuestion_valid_iff]
    apply (scanConcepts_eq_none _ _).mpr
    intro p hp k hk
    have hmem : k ∈ forbiddenKeywords :=
      List.mem_flatten.mpr ⟨p.2, List.mem_map_of_mem Prod.snd hp, hk⟩
    unfold triggersKeyword
    rw [hall k hmem]
    simp

/-- Witness for C1: a toss question is rejected with a non-empty
message; a phase question free of forbidden keywords is accepted. -/
theorem validateQuestion_spec_witness :
    ((validateQuestion "What was the toss decision?").is_valid = false ∧
      ∃ m, (validateQuestion "What was the toss decision?").message = some m ∧ m ≠ "") ∧
    (validateQuestion "Who are the best death over batsmen?").is_valid = true :=
  ⟨(validateQuestion_spec "What was the toss decision?").1
      ⟨"toss", by decide, by decide, by decide⟩,
   (validateQuestion_spec "Who are the best death over batsmen?").2 (by decide)⟩

/-- C6 counterexample: the question `What is the economy rate of Test
Bowler?` is rejected, but the returned message mentions neither
`bowling type` nor `economy` (even case-insensitively): the keyword
`bowler` of the bowler-identity group matches before the bowling-stats
group is reached. -/
theorem economyQuestion_counterexample :
    (validateQuestion "What is the economy rate of Test Bowler?").is_valid = false ∧
    strContains
      (lowerStr (((validateQuestion "What is the economy rate of Test Bowler?").message).getD ""))
      "bowling type" = false ∧
    strContains
      (lowerStr (((validateQuestion "What is the economy rate of Test Bowler?").message).getD ""))
      "economy" = false :=
  ⟨by decide, by decide, by decide⟩

/-- C6 (amended): the question is rejected, and the message is the
bowler-identity message: it states that specific bowlers or bowling
matchups are unavailable. -/
theorem economyQuestion_amended :
    (validateQuestion "What is the economy rate of Test Bowler?").is_valid = false ∧
    strContains
      (((validateQuestion "What is the economy rate of Test Bowler?").message).getD "")
      "specific bowlers or bowling matchups" = true :=
  ⟨by decide, by decide⟩

/-- C9: any question containing `chase` (hence also `chasing`),
`bat first` or `toss` is rejected by the validator (these toss-group
keywords have no exception), so `answer_question` returns the
validation message with the agent state unchanged — no actions are
planned, and the batting-order planning branch keyed on
`chasing`/`chase` is unreachable for such questions. -/
theorem tossLike_rejected (s : AgentState) (q : String)
    (h : strContains (lowerStr q) "chase" = true ∨
      strContains (lowerStr q) "bat first" = true ∨
      strContains (lowerStr q) "toss" = true) :
    (validateQuestion q).is_valid = false ∧
      answerQuestion s q = (((validateQuestion q).message).getD "", s) := by
  have hinv : (validateQuestion q).is_valid = false := by
    rcases h with h | h | h
    · refine (validate_invalid_of_trigger q "chase" (by decide) ?_).1
      unfold triggersKeyword
      rw [h, show (("chase" : String) == "against") = false from by decide]
      simp
    · refine (validate_invalid_of_trigger q "bat first" (by decide) ?_).1
      unfold triggersKeyword
      rw [h, show (("bat first" : String) == "against") = false from by decide]
      simp
    · refine (validate_invalid_of_trigger q "toss" (by decide) ?_).1
      unfold triggersKeyword
      rw [h, show (("toss" : String) == "against") = false from by decide]
      simp
  refine ⟨hinv, ?_⟩
  simp [answerQuestion, hinv]

/-- Witness for C9: a concrete chasing question is rejected and leaves
the agent state untouched. -/
theorem tossLike_rejected_witness :
    (validateQuestion "Should we chase the target?").is_valid = false ∧
      answerQuestion sampleAgent "Should we chase the target?" =
        (((validateQuestion "Should we chase the target?").message).getD "", sampleAgent) :=
  tossLike_rejected sampleAgent "Should we chase the target?" (Or.inl (by decide))

/-- C10: `answer_question` appends exactly one conversation-turn
record to the history when the question passes validation, and returns
with the agent state (hence the history) unchanged when the validator
rejects the question. -/
theorem answerQuestion_history (s : AgentState) (q : String) :
    ((validateQuestion q).is_valid = true →
      ∃ t, (answerQuestion s q).2.conversation_history = s.conversation_history ++ [t]) ∧
    ((validateQuestion q).is_valid = false → (answerQuestion s q).2 = s) := by
  constructor
  · intro h
    simp only [answerQuestion]
    rw [if_neg (by simp [h])]
    exact ⟨_, rfl⟩
  · intro h
    simp [answerQuestion, h]

/-- Witness for C10: a valid phase question appends one history
record; a toss question leaves the state unchanged. -/
theorem answerQuestion_history_witness :
    (∃ t, (answerQuestion sampleAgent "Who are the best death over batsmen?").2.conversation_history =
        sampleAgent.conversation_history ++ [t]) ∧
    (answerQuestion sampleAgent "What was the toss decision?").2 = sampleAgent :=
  ⟨(answerQuestion_history sampleAgent "Who are the best death over batsmen?").1 (by decide),
   (answerQuestion_history sampleAgent "What was the toss decision?").2 (by decide)⟩

/-- C2 counterexample: when a bowling-type note was inserted and no
priority rule planned a data lookup, `_reason_and_plan` returns only
the note — the `if not actions` default does not fire, so no Powerplay
lookup is planned, contrary to the claim. -/
theorem reasonAndPlan_note_only :
    reasonAndPlan "hello" noteOnlyEntities = ["note:bowling_type_unavailable"] ∧
      "get_best_players_for_phase:powerplay" ∉ reasonAndPlan "hello" noteOnlyEntities :=
  ⟨by decide, by decide⟩

/-- C2 (amended): when none of the planner's priority rules plans a
data lookup, the returned list is the single Powerplay default only if
the actions list is entirely empty — that is, only when no
bowling-type note was inserted; with bowling-type keywords present the
note alone is returned and the default is suppressed. -/
theorem reasonAndPlan_default (question : String) (entities : Entities)
    (h1 : entities.players = []) (h2 : entities.phases = [])
    (h3 : isGeneralRecommendation question = false)
    (h4 : isBattingOrderQuestion question = false)
    (h5 : entities.intent ≠ "recommendation") :
    (entities.bowling_types = [] →
      reasonAndPlan question entities = ["get_best_players_for_phase:powerplay"]) ∧
    (entities.bowling_types ≠ [] →
      reasonAndPlan question entities = ["note:bowling_type_unavailable"]) := by
  constructor <;> intro hb <;> simp [reasonAndPlan, h1, h2, h3, h4, h5, hb]

/-- Witness for C2 (amended): a contentless question with no entities
gets exactly the default Powerplay lookup. -/
theorem reasonAndPlan_default_witness :
    reasonAndPlan "hello" emptyEntities = ["get_best_players_for_phase:powerplay"] :=
  (reasonAndPlan_default "hello" emptyEntities rfl rfl (by decide) (by decide)
    (by decide)).1 rfl

/-- Lifting an error of the left operand through `Except.bind`. -/
theorem bind_error_of_left {α β : Type} (x : Except String α) (f : α → Except String β)
    (h : ∃ e, x = Except.error e) : ∃ e, (x >>= f) = Except.error e := by
  obtain ⟨e, he⟩ := h
  exact ⟨e, by rw [he]; rfl⟩

/-- The `try` block of `_generate_response` fails outright when every
client call raises. -/
theorem generateResponseCore_error (ai : String → Except String String) (question : String)
    (entities : Entities) (observations : String)
    (h : ∀ p, ∃ e, ai p = Except.error e) :
    ∃ e, generateResponseCore ai question entities observations = Except.error e := by
  unfold generateResponseCore
  exact bind_error_of_left _ _ (h _)

/-- C3: if every `generate_content` call raises, `_generate_response`
does not propagate the exception: it returns the locally assembled
fallback, which contains the observation text and is non-empty, so a
validated question always gets a substantive reply. -/
theorem generateResponse_fallback (ai : String → Except String String) (question : String)
    (entities : Entities) (observations : String)
    (h : ∀ p, ∃ e, ai p = Except.error e) :
    strContains (generateResponse ai question entities observations) observations = true ∧
      generateResponse ai question entities observations ≠ "" := by
  obtain ⟨e, he⟩ := generateResponseCore_error ai question entities observations h
  unfold generateResponse
  rw [he]
  constructor
  · exact strContains_append_mid _ _ _
  · exact append_ne_empty_left _ _ (by decide)

/-- Witness for C3: with a client that always raises, the reply still
contains the concrete observation text and is non-empty. -/
theorem generateResponse_fallback_witness :
    strContains (generateResponse (fun _ => Except.error "boom") "Question" emptyEntities "OBS")
        "OBS" = true ∧
      generateResponse (fun _ => Except.error "boom") "Question" emptyEntities "OBS" ≠ "" :=
  generateResponse_fallback (fun _ => Except.error "boom") "Question" emptyEntities "OBS"
    (fun _ => ⟨"boom", rfl⟩)

/-- C5: the entry-phase categorisation is a pure function of the entry
over: at most 6 gives Powerplay, 7 through 15 gives Middle, 16 or more
gives Death, for every rational entry over. -/
theorem entryPhase_spec (x : ℚ) :
    (x ≤ 6 → entryPhase x = "Powerplay") ∧
    (7 ≤ x ∧ x ≤ 15 → entryPhase x = "Middle") ∧
    (16 ≤ x → entryPhase x = "Death") := by
  refine ⟨fun h => ?_, fun h => ?_, fun h => ?_⟩ <;> unfold entryPhase
  · rw [if_pos h]
  · rw [if_neg (by linarith [h.1]), if_pos h.2]
  · rw [if_neg (by linarith), if_neg (by linarith)]

/-- Witness for C5: the three phase bands at concrete overs. -/
theorem entryPhase_spec_witness :
    entryPhase 3 = "Powerplay" ∧ entryPhase 10 = "Middle" ∧ entryPhase 18 = "Death" :=
  ⟨(entryPhase_spec 3).1 (by norm_num),
   (entryPhase_spec 10).2.1 ⟨by norm_num, by norm_num⟩,
   (entryPhase_spec 18).2.2 (by norm_num)⟩

/-- C8: for a fixed analyzer state, `get_player_stats` is
deterministic and idempotent — the method reads but never writes the
analyzer, so a second call with the same name returns the identical
summary and the state is unchanged. -/
theorem getPlayerStats_idempotent (s : CricketDataAnalyzerState) (player_name : String) :
    (getPlayerStatsCall ((getPlayerStatsCall s player_name).2) player_name).1 =
        (getPlayerStatsCall s player_name).1 ∧
      (getPlayerStatsCall ((getPlayerStatsCall s player_name).2) player_name).2 = s :=
  ⟨rfl, rfl⟩

/-- Every aggregate row records exactly the number of entry-point
records of its player in the filtered phase. -/
theorem phaseAggregates_count (ep : List Entry) (target : String) {a : PhaseAgg}
    (ha : a ∈ phaseAggregates ep target) :
    a.count = ((ep.filter (·.entry_phase == target)).filter (·.player == a.player)).length := by
  unfold phaseAggregates at ha
  obtain ⟨p, _, rfl⟩ := List.mem_map.mp ha
  rfl

/-- Every row surviving the filter stages satisfies the minimum match
count and comes from the aggregation. -/
theorem mem_bestPlayersFiltered (ep : List Entry) (phase : String) (min_matches : Nat)
    (min_sr max_sr : Option ℚ) {a : PhaseAgg}
    (ha : a ∈ bestPlayersFiltered ep phase min_matches min_sr max_sr) :
    min_matches ≤ a.count ∧ a ∈ phaseAggregates ep (targetPhase phase) := by
  unfold bestPlayersFiltered at ha
  rcases max_sr with _ | m2 <;> rcases min_sr with _ | m1 <;> simp only at ha
  · have h := List.mem_filter.mp ha
    exact ⟨by simpa using h.2, h.1⟩
  · have h := List.mem_filter.mp (List.mem_filter.mp ha).1
    exact ⟨by simpa using h.2, h.1⟩
  · have h := List.mem_filter.mp (List.mem_filter.mp ha).1
    exact ⟨by simpa using h.2, h.1⟩
  · have h := List.mem_filter.mp (List.mem_filter.mp (List.mem_filter.mp ha).1).1
    exact ⟨by simpa using h.2, h.1⟩

/-- C4: `get_best_players_for_phase` returns only players whose count
of entry-point records in the requested phase is at least
`min_matches` (the returned `matches` field is exactly that count),
and the returned list is sorted by descending mean strike rate (the
rounded `avg_strike_rate` it carries). -/
theorem getBestPlayersForPhase_spec (ep : List Entry) (phase : String) (min_matches : Nat)
    (top_n : Option Nat) (min_sr max_sr : Option ℚ) :
    (∀ r ∈ getBestPlayersForPhase ep phase min_matches top_n min_sr max_sr,
        min_matches ≤ r.match_count ∧
          r.match_count =
            ((ep.filter (·.entry_phase == targetPhase phase)).filter
              (·.player == r.player)).length) ∧
      (getBestPlayersForPhase ep phase min_matches top_n min_sr max_sr).Pairwise
        (fun r s => s.avg_strike_rate ≤ r.avg_strike_rate) := by
  constructor
  · intro r hr
    unfold getBestPlayersForPhase at hr
    have key : ∀ a ∈ List.insertionSort aggGE
        (bestPlayersFiltered ep phase min_matches min_sr max_sr),
        min_matches ≤ (formatBestRow a).match_count ∧
          (formatBestRow a).match_count =
            ((ep.filter (·.entry_phase == targetPhase phase)).filter
              (·.player == (formatBestRow a).player)).length := by
      intro a ha
      have ha' := (List.perm_insertionSort aggGE _).mem_iff.mp ha
      obtain ⟨hmin, hagg⟩ := mem_bestPlayersFiltered ep phase min_matches min_sr max_sr ha'
      exact ⟨hmin, phaseAggregates_count ep (targetPhase phase) hagg⟩
    rcases top_n with _ | n <;> simp only at hr
    · obtain ⟨a, ha, rfl⟩ := List.mem_map.mp hr
      exact key a ha
    · obtain ⟨a, ha, rfl⟩ := List.mem_map.mp hr
      exact key a (List.take_subset n _ ha)
  · unfold getBestPlayersForPhase
    have hs := List.sorted_insertionSort aggGE
      (bestPlayersFiltered ep phase min_matches min_sr max_sr)
    have hmap : ∀ a b : PhaseAgg, aggGE a b →
        (formatBestRow b).avg_strike_rate ≤ (formatBestRow a).avg_strike_rate :=
      fun _ _ hab => round1_mono hab
    rcases top_n with _ | n <;> simp only
    · exact List.Pairwise.map _ hmap hs
    · exact List.Pairwise.map _ hmap (List.Pairwise.sublist (List.take_sublist n _) hs)

/-- Witness for C4: on the sample dataset the Death leaderboard at
three minimum matches contains the aggregated `Alice` row, whose match
count is at least 3 and equals her Death-phase record count. -/
theorem getBestPlayersForPhase_spec_witness :
    3 ≤ sampleBestRow.match_count ∧
      sampleBestRow.match_count =
        ((sampleEp.filter (·.entry_phase == targetPhase "death")).filter
          (·.player == sampleBestRow.player)).length :=
  (getBestPlayersForPhase_spec sampleEp "death" 3 none none none).1 sampleBestRow (by decide)

/-- C7: player-name resolution is case-insensitive and tolerant of a
single-character edit: on a dataset containing `Virat Kohli`, the
misspelling `Virat Kohly` (similarity 10/11, above the 0.6 cutoff) and
the lower-cased `virat kohli` both resolve to the same player record
and hence the same summary, which exists. -/
theorem fuzzyKohli_resolution :
    getPlayerStats kohliEp "Virat Kohly" = getPlayerStats kohliEp "Virat Kohli" ∧
    getPlayerStats kohliEp "virat kohli" = getPlayerStats kohliEp "Virat Kohli" ∧
    (getPlayerStats kohliEp "Virat Kohli").isSome = true := by
  have h1 : resolvePlayerData kohliEp "Virat Kohly" = resolvePlayerData kohliEp "Virat Kohli" := by
    decide
  have h2 : resolvePlayerData kohliEp "virat kohli" = resolvePlayerData kohliEp "Virat Kohli" := by
    decide
  have h3 : resolvePlayerData kohliEp "Virat Kohli" ≠ [] := by decide
  refine ⟨?_, ?_, ?_⟩
  · simp only [getPlayerStats]
    rw [h1]
  · simp only [getPlayerStats]
    rw [h2]
  · simp only [getPlayerStats]
    rw [if_neg h3]
    rfl

end ReactAgent
